import Mathlib

/-
  Verification of the meeting-transcription HTTP handler.

  The repository holds two near-duplicate serverless handlers:
    src/api/transcribe.js      (URL rewrite for a storage vendor, file-type
                                sniffing from the URL, detailed download error)
    src/unnamed/part_000       (no rewrite, fixed mp3 file type, plain
                                download error message)
  Both are embedded below as pure functions over a request value and an
  environment of external-collaborator oracles (binary fetch, speech
  transcription, language-model chat, JSON parsing of the model output).
  Each run also produces the trace of network calls it performed, so that
  claims of the form "no network call happens" are provable.
-/

set_option maxHeartbeats 1000000

namespace MeetingTranscription

/-- A participant hint from the request body: a speaker display name and an
optional sample quote. -/
structure ParticipantHint where
  speaker : String
  sampleQuote : Option String
deriving Repr, DecidableEq

/-- A speaker summary as produced by the attribution model. -/
structure SpeakerSummary where
  name : String
  wordCount : Int
  summary : String
deriving Repr, DecidableEq

/-- A time-aligned transcription segment; the handler passes these through
unmodified, so only the shape matters. -/
structure Segment where
  start : Int
  stop : Int
  text : String
deriving Repr, DecidableEq

/-- The destructured fields of a JSON request body.  A field that is absent
(or undefined) in the JavaScript object is `none`. -/
structure RequestBody where
  audioUrl : Option String
  meetingName : Option String
  participants : Option (List ParticipantHint)
  openaiApiKey : Option String
deriving Repr, DecidableEq

/-- The possible shapes of `req.body` as seen by the destructuring statement
`const x = req.body` in the source.  `missing` and `nullValue` make the
destructuring throw a TypeError; `prim` is any other non-object JSON value
(string, number, boolean), whose destructuring yields undefined for every
field; `obj` is a JSON object. -/
inductive BodyValue where
  | missing
  | nullValue
  | prim
  | obj (b : RequestBody)
deriving Repr, DecidableEq

/-- JavaScript destructuring of `req.body`: `none` means the statement threw. -/
def destructure : BodyValue → Option RequestBody
  | .missing => none
  | .nullValue => none
  | .prim => some { audioUrl := none, meetingName := none,
                    participants := none, openaiApiKey := none }
  | .obj b => some b

/-- An incoming HTTP request: method string and body value. -/
structure Request where
  method : String
  body : BodyValue
deriving Repr, DecidableEq

/-- The response the binary-fetch collaborator returns for a URL. -/
structure FetchResponse where
  ok : Bool
  status : Nat
  statusText : String
deriving Repr, DecidableEq

/-- The verbose transcription-service response: `text` is always present,
the other fields are optional in the service output. -/
structure TranscriptionOutput where
  text : String
  segments : Option (List Segment)
  duration : Option Int
  language : Option String
deriving Repr, DecidableEq

/-- The fields of the JSON object produced by parsing the attribution model
response; each key may be absent. -/
structure Analysis where
  transcript : Option String
  speakers : Option (List SpeakerSummary)
  meetingSummary : Option String
deriving Repr, DecidableEq

/-- The environment of external collaborators for one invocation.
`fetch` maps the URL actually fetched to its HTTP response; `transcribe`
is the speech-service outcome (error = thrown exception message);
`chat` is the language-model outcome, the content of the first choice;
`jsonParse` is the JavaScript JSON.parse of that content, `none` when
parsing throws. -/
structure Env where
  fetch : String → FetchResponse
  transcribe : Except String TranscriptionOutput
  chat : Except String String
  jsonParse : String → Option Analysis

/-- The result object assembled on the success path. -/
structure TranscriptionResult where
  success : Bool
  meetingName : String
  transcript : String
  rawTranscript : String
  segments : List Segment
  speakers : List SpeakerSummary
  meetingSummary : String
  duration : Int
  language : String
deriving Repr, DecidableEq

/-- The JSON body of an HTTP response.  `errorMsg e` is a bare error object;
`failed m` is the processing-failure object with error "Transcription failed"
and message `m`; `ok r` is the success result. -/
inductive ResponseBody where
  | empty
  | errorMsg (e : String)
  | failed (message : String)
  | ok (r : TranscriptionResult)
deriving Repr, DecidableEq

/-- An HTTP response: status code and JSON body. -/
structure HttpResponse where
  status : Nat
  body : ResponseBody
deriving Repr, DecidableEq

/-- One outbound network call, recorded in order of occurrence. -/
inductive NetCall where
  | download (url : String)
  | whisper (mimeType : String) (fileName : String)
  | chat (systemMsg : String) (maxTokens : Nat)
deriving Repr, DecidableEq

/-- JavaScript substring test `s.includes(pat)`. -/
def containsSub (s pat : String) : Bool :=
  decide (pat.data <:+: s.data)

/-- JavaScript toLowerCase, character by character; the URLs concerned are
ASCII, where this agrees with the JavaScript method. -/
def lowerString (s : String) : String :=
  String.mk (s.data.map Char.toLower)

/-- JavaScript falsiness of an optional string field: absent or empty. -/
def jsFalsy : Option String → Bool
  | none => true
  | some s => s == ""

/-- The guard `participants and participants.length greater than 0`. -/
def jsNonEmpty : Option (List ParticipantHint) → Bool
  | none => false
  | some ps => decide (ps.length > 0)

/-- JavaScript `x or-else d` for a string-valued field: the empty string is
falsy, so it also falls back to the default. -/
def jsOrStr (o : Option String) (d : String) : String :=
  match o with
  | none => d
  | some s => if s = "" then d else s

/-- JavaScript `x or-else d` for a number-valued field: 0 is falsy. -/
def jsOrInt (o : Option Int) (d : Int) : Int :=
  match o with
  | none => d
  | some n => if n = 0 then d else n

/-- Message of the TypeError thrown when destructuring an absent or null
body (the exact runtime text is host specific; only its presence matters). -/
def destructureMessage : String :=
  "Cannot destructure property audioUrl of req.body as it is undefined"

/-- System message of the speaker-attribution chat call (mode A). -/
def attributionSystemMessage : String :=
  "You are an expert at analyzing meeting transcripts and identifying speakers. Always respond with valid JSON."

/-- System message of the summarization chat call (mode B). -/
def summarySystemMessage : String :=
  "Summarize this meeting transcript in 3-4 sentences."

/-- Lines 49-57 of src/api/transcribe.js: append directDownload=true to
Zoho WorkDrive URLs, with an ampersand when the URL already has a query. -/
def resolveDownloadUrl (audioUrl : String) : String :=
  if containsSub audioUrl "workdrive.zoho" then
    if containsSub audioUrl "?" then
      audioUrl ++ "&directDownload=true"
    else
      audioUrl ++ "?directDownload=true"
  else
    audioUrl

/-- Lines 66-88 of src/api/transcribe.js: infer (mimeType, fileName) from
case-insensitive substring tests on the URL, in source order, defaulting to
audio/mp4 and audio.m4a. -/
def detectFileType (audioUrl : String) : String × String :=
  if containsSub (lowerString audioUrl) ".mp3" then ("audio/mpeg", "audio.mp3")
  else if containsSub (lowerString audioUrl) ".wav" then ("audio/wav", "audio.wav")
  else if containsSub (lowerString audioUrl) ".m4a" then ("audio/mp4", "audio.m4a")
  else if containsSub (lowerString audioUrl) ".mp4" then ("audio/mp4", "audio.mp4")
  else if containsSub (lowerString audioUrl) ".ogg" then ("audio/ogg", "audio.ogg")
  else if containsSub (lowerString audioUrl) ".webm" then ("audio/webm", "audio.webm")
  else ("audio/mp4", "audio.m4a")

/-- Lines 182-192 of src/api/transcribe.js (and 146-156 of part_000): the
success-result assembly from the request body, the transcription output and
the three mode-dependent variables. -/
def assembleResult (b : RequestBody) (transcription : TranscriptionOutput)
    (matchedTranscript : String) (speakerSummaries : List SpeakerSummary)
    (meetingSummary : String) : TranscriptionResult :=
  { success := true
    meetingName := jsOrStr b.meetingName "Untitled Meeting"
    transcript := matchedTranscript
    rawTranscript := transcription.text
    segments := transcription.segments.getD []
    speakers := speakerSummaries
    meetingSummary := meetingSummary
    duration := jsOrInt transcription.duration 0
    language := jsOrStr transcription.language "en" }

/-- The handler of src/api/transcribe.js.  The prompt strings sent to the
language model are abstracted to the system message and token bound recorded
in the call trace; no claim concerns the prompt text itself. -/
def handler (req : Request) (env : Env) : HttpResponse × List NetCall :=
  if req.method = "OPTIONS" then
    ({ status := 200, body := .empty }, [])
  else if req.method ≠ "POST" then
    ({ status := 405, body := .errorMsg "Method not allowed" }, [])
  else
    match destructure req.body with
    | none => ({ status := 500, body := .failed destructureMessage }, [])
    | some b =>
      if jsFalsy b.audioUrl then
        ({ status := 400, body := .errorMsg "audioUrl is required" }, [])
      else if jsFalsy b.openaiApiKey then
        ({ status := 400, body := .errorMsg "openaiApiKey is required" }, [])
      else
        let audioUrl := b.audioUrl.getD ""
        let downloadUrl := resolveDownloadUrl audioUrl
        let audioResponse := env.fetch downloadUrl
        if !audioResponse.ok then
          ({ status := 500,
             body := .failed ("Failed to download audio file: "
               ++ toString audioResponse.status ++ " " ++ audioResponse.statusText) },
           [.download downloadUrl])
        else
          let ft := detectFileType audioUrl
          match env.transcribe with
          | .error e =>
            ({ status := 500, body := .failed e },
             [.download downloadUrl, .whisper ft.1 ft.2])
          | .ok transcription =>
            if jsNonEmpty b.participants then
              match env.chat with
              | .error e =>
                ({ status := 500, body := .failed e },
                 [.download downloadUrl, .whisper ft.1 ft.2,
                  .chat attributionSystemMessage 4000])
              | .ok content =>
                match env.jsonParse content with
                | none =>
                  ({ status := 200,
                     body := .ok (assembleResult b transcription
                       transcription.text [] "") },
                   [.download downloadUrl, .whisper ft.1 ft.2,
                    .chat attributionSystemMessage 4000])
                | some analysis =>
                  ({ status := 200,
                     body := .ok (assembleResult b transcription
                       (jsOrStr analysis.transcript transcription.text)
                       (analysis.speakers.getD [])
                       (jsOrStr analysis.meetingSummary "")) },
                   [.download downloadUrl, .whisper ft.1 ft.2,
                    .chat attributionSystemMessage 4000])
            else
              match env.chat with
              | .error e =>
                ({ status := 500, body := .failed e },
                 [.download downloadUrl, .whisper ft.1 ft.2,
                  .chat summarySystemMessage 500])
              | .ok content =>
                ({ status := 200,
                   body := .ok (assembleResult b transcription
                     transcription.text [] content) },
                 [.download downloadUrl, .whisper ft.1 ft.2,
                  .chat summarySystemMessage 500])

/-- The handler of src/unnamed/part_000: identical to `handler` except that
the URL is fetched unmodified, the download failure message carries no
status, and the uploaded file is always audio/mpeg named audio.mp3. -/
def handlerV0 (req : Request) (env : Env) : HttpResponse × List NetCall :=
  if req.method = "OPTIONS" then
    ({ status := 200, body := .empty }, [])
  else if req.method ≠ "POST" then
    ({ status := 405, body := .errorMsg "Method not allowed" }, [])
  else
    match destructure req.body with
    | none => ({ status := 500, body := .failed destructureMessage }, [])
    | some b =>
      if jsFalsy b.audioUrl then
        ({ status := 400, body := .errorMsg "audioUrl is required" }, [])
      else if jsFalsy b.openaiApiKey then
        ({ status := 400, body := .errorMsg "openaiApiKey is required" }, [])
      else
        let audioUrl := b.audioUrl.getD ""
        let audioResponse := env.fetch audioUrl
        if !audioResponse.ok then
          ({ status := 500, body := .failed "Failed to download audio file" },
           [.download audioUrl])
        else
          match env.transcribe with
          | .error e =>
            ({ status := 500, body := .failed e },
             [.download audioUrl, .whisper "audio/mpeg" "audio.mp3"])
          | .ok transcription =>
            if jsNonEmpty b.participants then
              match env.chat with
              | .error e =>
                ({ status := 500, body := .failed e },
                 [.download audioUrl, .whisper "audio/mpeg" "audio.mp3",
                  .chat attributionSystemMessage 4000])
              | .ok content =>
                match env.jsonParse content with
                | none =>
                  ({ status := 200,
                     body := .ok (assembleResult b transcription
                       transcription.text [] "") },
                   [.download audioUrl, .whisper "audio/mpeg" "audio.mp3",
                    .chat attributionSystemMessage 4000])
                | some analysis =>
                  ({ status := 200,
                     body := .ok (assembleResult b transcription
                       (jsOrStr analysis.transcript transcription.text)
                       (analysis.speakers.getD [])
                       (jsOrStr analysis.meetingSummary "")) },
                   [.download audioUrl, .whisper "audio/mpeg" "audio.mp3",
                    .chat attributionSystemMessage 4000])
            else
              match env.chat with
              | .error e =>
                ({ status := 500, body := .failed e },
                 [.download audioUrl, .whisper "audio/mpeg" "audio.mp3",
                  .chat summarySystemMessage 500])
              | .ok content =>
                ({ status := 200,
                   body := .ok (assembleResult b transcription
                     transcription.text [] content) },
                 [.download audioUrl, .whisper "audio/mpeg" "audio.mp3",
                  .chat summarySystemMessage 500])

/-- The success result carried by a response, when there is one. -/
def resultOf (resp : HttpResponse) : Option TranscriptionResult :=
  match resp.body with
  | .ok r => some r
  | _ => none

/-- Spec-side table for file-type inference: extension substring, MIME type
and filename, in the precedence order the spec states. -/
def extensionRules : List (String × String × String) :=
  [(".mp3", "audio/mpeg", "audio.mp3"),
   (".wav", "audio/wav", "audio.wav"),
   (".m4a", "audio/mp4", "audio.m4a"),
   (".mp4", "audio/mp4", "audio.mp4"),
   (".ogg", "audio/ogg", "audio.ogg"),
   (".webm", "audio/webm", "audio.webm")]

/-- Spec-side file-type inference, written from the words of the spec: test
the extensions as case-insensitive substrings of the URL in the listed
precedence order, first match wins, default audio/mp4 with audio.m4a. -/
def specDetectFileType (url : String) : String × String :=
  match extensionRules.find? (fun r => containsSub (lowerString url) r.1) with
  | some r => (r.2.1, r.2.2)
  | none => ("audio/mp4", "audio.m4a")

/-- Fixture: transcription output with only the mandatory text field. -/
def trHello : TranscriptionOutput :=
  { text := "hello world", segments := none, duration := none, language := none }

/-- Fixture: transcription output whose optional fields are all present and
whose language is the empty string. -/
def trLangEmpty : TranscriptionOutput :=
  { text := "hi", segments := some [{ start := 0, stop := 2, text := "hi" }],
    duration := some 5, language := some "" }

/-- Fixture: a valid body without participants. -/
def bodyPlain : RequestBody :=
  { audioUrl := some "https://example.com/a.mp3", meetingName := none,
    participants := none, openaiApiKey := some "k" }

/-- Fixture: a valid body with one participant. -/
def bodyParts : RequestBody :=
  { audioUrl := some "https://example.com/a.mp3", meetingName := some "Standup",
    participants := some [{ speaker := "Alice", sampleQuote := none }],
    openaiApiKey := some "k" }

/-- Fixture: POST request without participants. -/
def reqPlain : Request := { method := "POST", body := .obj bodyPlain }

/-- Fixture: POST request with one participant. -/
def reqParts : Request := { method := "POST", body := .obj bodyParts }

/-- Fixture: POST request with an absent body. -/
def reqMissingBody : Request := { method := "POST", body := .missing }

/-- Fixture: POST request with a null body. -/
def reqNullBody : Request := { method := "POST", body := .nullValue }

/-- Fixture: POST request with a non-null, non-object body. -/
def reqPrimBody : Request := { method := "POST", body := .prim }

/-- Fixture: POST request with the audioUrl field absent. -/
def reqNoUrl : Request :=
  { method := "POST",
    body := .obj { audioUrl := none, meetingName := none,
                   participants := none, openaiApiKey := some "k" } }

/-- Fixture: POST request with an empty openaiApiKey. -/
def reqEmptyKey : Request :=
  { method := "POST",
    body := .obj { audioUrl := some "https://example.com/a.mp3",
                   meetingName := none, participants := none,
                   openaiApiKey := some "" } }

/-- Fixture: every external call succeeds, model output is unparsable. -/
def envAllOk : Env :=
  { fetch := fun _ => { ok := true, status := 200, statusText := "OK" },
    transcribe := .ok trHello,
    chat := .ok "a short summary",
    jsonParse := fun _ => none }

/-- Fixture: the download returns HTTP 404. -/
def env404 : Env :=
  { fetch := fun _ => { ok := false, status := 404, statusText := "Not Found" },
    transcribe := .ok trHello,
    chat := .ok "a short summary",
    jsonParse := fun _ => none }

/-- Fixture: attribution model returns a string JSON.parse rejects. -/
def envParseFail : Env :=
  { fetch := fun _ => { ok := true, status := 200, statusText := "OK" },
    transcribe := .ok trHello,
    chat := .ok "not valid json",
    jsonParse := fun _ => none }

/-- Fixture: a fully populated parsed attribution analysis. -/
def analysisGood : Analysis :=
  { transcript := some "Alice: hello world",
    speakers := some [{ name := "Alice", wordCount := 2, summary := "spoke" }],
    meetingSummary := some "short meeting" }

/-- Fixture: a parsed analysis whose transcript key holds the empty string. -/
def analysisEmptyTranscript : Analysis :=
  { transcript := some "",
    speakers := some [{ name := "Alice", wordCount := 2, summary := "spoke" }],
    meetingSummary := some "short meeting" }

/-- Fixture: attribution response parses to `analysisGood`. -/
def envParsedGood : Env :=
  { fetch := fun _ => { ok := true, status := 200, statusText := "OK" },
    transcribe := .ok trHello,
    chat := .ok "json payload",
    jsonParse := fun _ => some analysisGood }

/-- Fixture: attribution response parses to `analysisEmptyTranscript`. -/
def envParsedEmpty : Env :=
  { fetch := fun _ => { ok := true, status := 200, statusText := "OK" },
    transcribe := .ok trHello,
    chat := .ok "json payload",
    jsonParse := fun _ => some analysisEmptyTranscript }

/-- Fixture: all calls succeed and the transcription is `trLangEmpty`. -/
def envLangEmpty : Env :=
  { fetch := fun _ => { ok := true, status := 200, statusText := "OK" },
    transcribe := .ok trLangEmpty,
    chat := .ok "a short summary",
    jsonParse := fun _ => none }

/-- Expected result for `reqPlain` under `envAllOk`. -/
def resPlain : TranscriptionResult :=
  { success := true, meetingName := "Untitled Meeting",
    transcript := "hello world", rawTranscript := "hello world",
    segments := [], speakers := [], meetingSummary := "a short summary",
    duration := 0, language := "en" }

/-- Expected result for `reqParts` under `envParseFail`. -/
def resParseFail : TranscriptionResult :=
  { success := true, meetingName := "Standup",
    transcript := "hello world", rawTranscript := "hello world",
    segments := [], speakers := [], meetingSummary := "",
    duration := 0, language := "en" }

/-- Expected result for `reqParts` under `envParsedGood`. -/
def resParsedGood : TranscriptionResult :=
  { success := true, meetingName := "Standup",
    transcript := "Alice: hello world", rawTranscript := "hello world",
    segments := [],
    speakers := [{ name := "Alice", wordCount := 2, summary := "spoke" }],
    meetingSummary := "short meeting", duration := 0, language := "en" }

/-- Expected result for `reqParts` under `envParsedEmpty`. -/
def resParsedEmpty : TranscriptionResult :=
  { success := true, meetingName := "Standup",
    transcript := "hello world", rawTranscript := "hello world",
    segments := [],
    speakers := [{ name := "Alice", wordCount := 2, summary := "spoke" }],
    meetingSummary := "short meeting", duration := 0, language := "en" }

/-- Expected result for `reqPlain` under `envLangEmpty`. -/
def resLangEmpty : TranscriptionResult :=
  { success := true, meetingName := "Untitled Meeting",
    transcript := "hi", rawTranscript := "hi",
    segments := [{ start := 0, stop := 2, text := "hi" }], speakers := [],
    meetingSummary := "a short summary", duration := 5, language := "en" }

/-- Helper: a provable infix of the character data makes `containsSub` true. -/
theorem containsSub_of_infix (s pat : String) (h : pat.data <:+: s.data) :
    containsSub s pat = true :=
  decide_eq_true h

/-- C3: MIME-type and filename inference is a pure function of the URL
string; the source chain of conditionals coincides, for every URL, with the
spec-side first-match lookup over the precedence-ordered extension table,
including the audio/mp4 with audio.m4a default when no extension matches. -/
theorem detectFileType_follows_spec_order :
    ∀ url, detectFileType url = specDetectFileType url := by
  intro url
  simp only [detectFileType, specDetectFileType, extensionRules, List.find?]
  repeat' split <;> simp_all

/-- C7: a URL containing the vendor signature workdrive.zoho is rewritten to
carry directDownload=true, appended with an ampersand when the URL already
holds a question mark and with a question mark otherwise; any other URL is
fetched unchanged; and on every run that passes validation the first network
call downloads exactly the resolved URL. -/
theorem workdrive_rewrite (url : String) :
    (containsSub url "workdrive.zoho" = true → containsSub url "?" = true →
      resolveDownloadUrl url = url ++ "&directDownload=true")
    ∧ (containsSub url "workdrive.zoho" = true → containsSub url "?" = false →
      resolveDownloadUrl url = url ++ "?directDownload=true")
    ∧ (containsSub url "workdrive.zoho" = false → resolveDownloadUrl url = url)
    ∧ (∀ req env b, req.method = "POST" → req.body = .obj b →
        jsFalsy b.audioUrl = false → jsFalsy b.openaiApiKey = false →
        ((handler req env).2).head? =
          some (.download (resolveDownloadUrl (b.audioUrl.getD "")))) := by
  refine ⟨?_, ?_, ?_, ?_⟩
  · intro h hq; simp [resolveDownloadUrl, h, hq]
  · intro h hq; simp [resolveDownloadUrl, h, hq]
  · intro h; simp [resolveDownloadUrl, h]
  · intro req env b hm hb hu hk
    simp only [handler, hm, hb, destructure, hu, hk]
    repeat' split
    all_goals simp_all

/-- Witness for C7: concrete vendor URLs with and without a query string, a
non-matching URL, and a concrete run whose first network call downloads the
resolved URL. -/
theorem workdrive_rewrite_witness :
    resolveDownloadUrl "https://workdrive.zoho.eu/file/x?id=1"
      = "https://workdrive.zoho.eu/file/x?id=1&directDownload=true"
    ∧ resolveDownloadUrl "https://workdrive.zoho.eu/file/x"
      = "https://workdrive.zoho.eu/file/x?directDownload=true"
    ∧ resolveDownloadUrl "https://example.com/a.mp3" = "https://example.com/a.mp3"
    ∧ ((handler reqPlain envAllOk).2).head?
      = some (.download (resolveDownloadUrl "https://example.com/a.mp3")) :=
  ⟨(workdrive_rewrite "https://workdrive.zoho.eu/file/x?id=1").1
     (by decide) (by decide),
   (workdrive_rewrite "https://workdrive.zoho.eu/file/x").2.1
     (by decide) (by decide),
   (workdrive_rewrite "https://example.com/a.mp3").2.2.1 (by decide),
   (workdrive_rewrite "https://example.com/a.mp3").2.2.2
     reqPlain envAllOk bodyPlain rfl rfl rfl rfl⟩

/-- Helper: a pattern sitting between two string pieces is a substring of
the concatenation. -/
theorem containsSub_mid (a m sp t : String) :
    containsSub (a ++ m ++ sp ++ t) m = true := by
  apply containsSub_of_infix
  simp only [String.data_append]
  rw [List.append_assoc]
  exact List.infix_append _ _ _

/-- Helper: the final piece of a concatenation is a substring of it. -/
theorem containsSub_last (a t : String) : containsSub (a ++ t) t = true := by
  apply containsSub_of_infix
  simp only [String.data_append]
  exact (List.suffix_append _ _).isInfix

/-- Helper: the JavaScript or-else with default 0 is plain defaulting, since
a present 0 falls back to the default 0 itself. -/
theorem jsOrInt_zero (o : Option Int) : jsOrInt o 0 = o.getD 0 := by
  cases o with
  | none => rfl
  | some n =>
    by_cases h : n = 0 <;> simp [jsOrInt, h]

/-- Helper: the JavaScript or-else with the empty string as default is plain
defaulting, since a present empty string falls back to the same value. -/
theorem jsOrStr_empty (o : Option String) : jsOrStr o "" = o.getD "" := by
  cases o with
  | none => rfl
  | some s =>
    by_cases h : s = "" <;> simp [jsOrStr, h]

/-- C4: a request whose audioUrl is absent or empty is rejected with the
exact 400 message audioUrl is required; a request with a truthy audioUrl but
absent or empty openaiApiKey is rejected with the exact 400 message
openaiApiKey is required; in both cases, and in both handler versions, the
network-call trace is empty. -/
theorem validation_rejects_without_network (req : Request) (env : Env)
    (b : RequestBody) (hm : req.method = "POST") (hb : req.body = .obj b) :
    (jsFalsy b.audioUrl = true →
      handler req env =
        ({ status := 400, body := .errorMsg "audioUrl is required" }, [])
      ∧ handlerV0 req env =
        ({ status := 400, body := .errorMsg "audioUrl is required" }, []))
    ∧ (jsFalsy b.audioUrl = false → jsFalsy b.openaiApiKey = true →
      handler req env =
        ({ status := 400, body := .errorMsg "openaiApiKey is required" }, [])
      ∧ handlerV0 req env =
        ({ status := 400, body := .errorMsg "openaiApiKey is required" }, [])) := by
  constructor
  · intro h
    constructor <;> simp [handler, handlerV0, hm, hb, destructure, h]
  · intro h hk
    constructor <;> simp [handler, handlerV0, hm, hb, destructure, h, hk]

/-- Witness for C4: concrete rejected requests in both versions. -/
theorem validation_rejects_without_network_witness :
    handler reqNoUrl envAllOk =
      ({ status := 400, body := .errorMsg "audioUrl is required" }, [])
    ∧ handlerV0 reqEmptyKey envAllOk =
      ({ status := 400, body := .errorMsg "openaiApiKey is required" }, []) :=
  ⟨((validation_rejects_without_network reqNoUrl envAllOk _ rfl rfl).1 rfl).1,
   ((validation_rejects_without_network reqEmptyKey envAllOk _ rfl rfl).2 rfl rfl).2⟩

/-- C6 (amended): when the download response is non-success, either handler
returns status 500 with the Transcription-failed object and the only network
call in the trace is the download itself, so the transcription and
language-model services are never invoked; in the transcribe.js copy the
message holds the HTTP status and status text, while the part_000 copy
throws the bare message with neither. -/
theorem download_failure_aborts (req : Request) (env : Env) (b : RequestBody)
    (hm : req.method = "POST") (hb : req.body = .obj b)
    (hu : jsFalsy b.audioUrl = false) (hk : jsFalsy b.openaiApiKey = false) :
    ((env.fetch (resolveDownloadUrl (b.audioUrl.getD ""))).ok = false →
      handler req env =
        ({ status := 500,
           body := .failed ("Failed to download audio file: "
             ++ toString (env.fetch (resolveDownloadUrl (b.audioUrl.getD ""))).status
             ++ " "
             ++ (env.fetch (resolveDownloadUrl (b.audioUrl.getD ""))).statusText) },
         [.download (resolveDownloadUrl (b.audioUrl.getD ""))])
      ∧ containsSub ("Failed to download audio file: "
          ++ toString (env.fetch (resolveDownloadUrl (b.audioUrl.getD ""))).status
          ++ " "
          ++ (env.fetch (resolveDownloadUrl (b.audioUrl.getD ""))).statusText)
          (toString (env.fetch (resolveDownloadUrl (b.audioUrl.getD ""))).status)
          = true
      ∧ containsSub ("Failed to download audio file: "
          ++ toString (env.fetch (resolveDownloadUrl (b.audioUrl.getD ""))).status
          ++ " "
          ++ (env.fetch (resolveDownloadUrl (b.audioUrl.getD ""))).statusText)
          (env.fetch (resolveDownloadUrl (b.audioUrl.getD ""))).statusText
          = true)
    ∧ ((env.fetch (b.audioUrl.getD "")).ok = false →
      handlerV0 req env =
        ({ status := 500, body := .failed "Failed to download audio file" },
         [.download (b.audioUrl.getD "")])) := by
  constructor
  · intro hfail
    refine ⟨?_, containsSub_mid _ _ _ _, containsSub_last _ _⟩
    simp [handler, hm, hb, destructure, hu, hk, hfail]
  · intro hfail
    simp [handlerV0, hm, hb, destructure, hu, hk, hfail]

/-- Witness for C6: a 404 download response makes the transcribe.js copy
produce the failure object with a message containing 404 and the part_000
copy produce the bare failure message, with only the download call in either
trace. -/
theorem download_failure_aborts_witness :
    handler reqPlain env404 =
      ({ status := 500,
         body := .failed "Failed to download audio file: 404 Not Found" },
       [.download "https://example.com/a.mp3"])
    ∧ containsSub "Failed to download audio file: 404 Not Found" "404" = true
    ∧ handlerV0 reqPlain env404 =
      ({ status := 500, body := .failed "Failed to download audio file" },
       [.download "https://example.com/a.mp3"]) := by
  have h := download_failure_aborts reqPlain env404 bodyPlain rfl rfl rfl rfl
  exact ⟨(h.1 rfl).1.trans (by decide), by decide, (h.2 rfl).trans (by decide)⟩

/-- Counterexample for C6 as stated: in the part_000 copy, cited by the
claim, a 404 download response yields the bare message Failed to download
audio file, which contains neither the HTTP status 404 nor the status text,
so the download error does not carry them there. -/
theorem downloadV0_message_lacks_status :
    handlerV0 reqPlain env404 =
      ({ status := 500, body := .failed "Failed to download audio file" },
       [.download "https://example.com/a.mp3"])
    ∧ containsSub "Failed to download audio file" "404" = false
    ∧ containsSub "Failed to download audio file" "Not Found" = false :=
  ⟨rfl, by decide, by decide⟩

/-- C10 (amended): a POST request whose body is absent or null, so that the
destructuring statement throws, yields the 500 processing-failure object
with the exception text, not a 400 validation message, in both handler
versions. -/
theorem throwing_body_yields_500 (req : Request) (env : Env)
    (hm : req.method = "POST")
    (hb : req.body = .missing ∨ req.body = .nullValue) :
    handler req env = ({ status := 500, body := .failed destructureMessage }, [])
    ∧ handlerV0 req env =
      ({ status := 500, body := .failed destructureMessage }, []) := by
  rcases hb with h | h <;> constructor <;>
    simp [handler, handlerV0, hm, h, destructure]

/-- Witness for C10: concrete absent and null bodies. -/
theorem throwing_body_yields_500_witness :
    handler reqMissingBody envAllOk =
      ({ status := 500, body := .failed destructureMessage }, [])
    ∧ handlerV0 reqNullBody envAllOk =
      ({ status := 500, body := .failed destructureMessage }, []) :=
  ⟨(throwing_body_yields_500 reqMissingBody envAllOk rfl (Or.inl rfl)).1,
   (throwing_body_yields_500 reqNullBody envAllOk rfl (Or.inr rfl)).2⟩

/-- Counterexample for C10 as stated: a non-null, non-object body does not
make the destructuring throw; its fields destructure to undefined, so the
handler answers with the 400 validation message, not the 500 shape. -/
theorem nonobject_body_not_500 :
    reqPrimBody.body = BodyValue.prim
    ∧ handler reqPrimBody envAllOk =
      ({ status := 400, body := .errorMsg "audioUrl is required" }, [])
    ∧ (handler reqPrimBody envAllOk).1.status ≠ 500 :=
  ⟨rfl, rfl, by decide⟩

/-- C1: with a non-empty participants list, when the attribution model
response is not parseable as JSON, both handler versions still answer 200
with a success result whose transcript equals the raw transcription text,
whose speakers list is empty and whose meetingSummary is the empty string;
the parse failure never aborts the request. -/
theorem parse_failure_degrades_softly (req : Request) (env : Env)
    (b : RequestBody) (ps : List ParticipantHint) (t : TranscriptionOutput)
    (c : String)
    (hm : req.method = "POST") (hb : req.body = .obj b)
    (hu : jsFalsy b.audioUrl = false) (hk : jsFalsy b.openaiApiKey = false)
    (hp : b.participants = some ps) (hne : ps ≠ [])
    (hf : ∀ u, (env.fetch u).ok = true)
    (ht : env.transcribe = Except.ok t) (hc : env.chat = Except.ok c)
    (hj : env.jsonParse c = none) :
    (handler req env).1 =
      { status := 200, body := .ok (assembleResult b t t.text [] "") }
    ∧ (handlerV0 req env).1 =
      { status := 200, body := .ok (assembleResult b t t.text [] "") }
    ∧ (assembleResult b t t.text [] "").success = true
    ∧ (assembleResult b t t.text [] "").transcript = t.text
    ∧ (assembleResult b t t.text [] "").rawTranscript = t.text
    ∧ (assembleResult b t t.text [] "").speakers = []
    ∧ (assembleResult b t t.text [] "").meetingSummary = "" := by
  have hpp : jsNonEmpty b.participants = true := by
    rw [hp]; simp [jsNonEmpty, List.length_pos, hne]
  refine ⟨?_, ?_, rfl, rfl, rfl, rfl, rfl⟩
  · simp [handler, hm, hb, destructure, hu, hk, hf, ht, hpp, hc, hj]
  · simp [handlerV0, hm, hb, destructure, hu, hk, hf, ht, hpp, hc, hj]

/-- Witness for C1: a concrete request with one participant where the model
answer does not parse. -/
theorem parse_failure_degrades_softly_witness :
    (handler reqParts envParseFail).1 =
      { status := 200, body := .ok resParseFail }
    ∧ resParseFail.success = true
    ∧ resParseFail.transcript = "hello world"
    ∧ resParseFail.speakers = []
    ∧ resParseFail.meetingSummary = "" := by
  have h := parse_failure_degrades_softly reqParts envParseFail bodyParts
    [{ speaker := "Alice", sampleQuote := none }] trHello "not valid json"
    rfl rfl rfl rfl rfl (by decide) (fun _ => rfl) rfl rfl rfl
  exact ⟨h.1.trans (by decide), rfl, rfl, rfl, rfl⟩

/-- C2: with a successful transcription, every success result carries the
verbatim transcription text in rawTranscript, in both handler versions and
in every mode (attribution success, attribution parse failure, and the
no-participants summary mode). -/
theorem rawTranscript_always_verbatim (req : Request) (env : Env)
    (b : RequestBody) (t : TranscriptionOutput)
    (hm : req.method = "POST") (hb : req.body = .obj b)
    (hu : jsFalsy b.audioUrl = false) (hk : jsFalsy b.openaiApiKey = false)
    (hf : ∀ u, (env.fetch u).ok = true)
    (ht : env.transcribe = Except.ok t) :
    (∀ r, resultOf (handler req env).1 = some r → r.rawTranscript = t.text)
    ∧ (∀ r, resultOf (handlerV0 req env).1 = some r → r.rawTranscript = t.text) := by
  constructor
  · intro r hr
    simp [handler, hm, hb, destructure, hu, hk, hf, ht] at hr
    repeat' split at hr
    all_goals try simp_all [resultOf, assembleResult]
    all_goals (subst hr; rfl)
  · intro r hr
    simp [handlerV0, hm, hb, destructure, hu, hk, hf, ht] at hr
    repeat' split at hr
    all_goals try simp_all [resultOf, assembleResult]
    all_goals (subst hr; rfl)

/-- Witness for C2: a concrete successful run. -/
theorem rawTranscript_always_verbatim_witness :
    resultOf (handler reqPlain envAllOk).1 = some resPlain
    ∧ resPlain.rawTranscript = "hello world" :=
  ⟨by decide,
   (rawTranscript_always_verbatim reqPlain envAllOk bodyPlain trHello
     rfl rfl rfl rfl (fun _ => rfl) rfl).1 resPlain (by decide)⟩

/-- C5: when participants is absent or the empty sequence, both handler
versions take the summary-only mode: the single language-model call is the
summarization one, the result has an empty speakers sequence, transcript
equal to rawTranscript, and meetingSummary equal to the text the model
returned. -/
theorem no_participants_summary_mode (req : Request) (env : Env)
    (b : RequestBody) (t : TranscriptionOutput) (c : String)
    (hm : req.method = "POST") (hb : req.body = .obj b)
    (hu : jsFalsy b.audioUrl = false) (hk : jsFalsy b.openaiApiKey = false)
    (hp : b.participants = none ∨ b.participants = some [])
    (hf : ∀ u, (env.fetch u).ok = true)
    (ht : env.transcribe = Except.ok t) (hc : env.chat = Except.ok c) :
    handler req env =
      ({ status := 200, body := .ok (assembleResult b t t.text [] c) },
       [.download (resolveDownloadUrl (b.audioUrl.getD "")),
        .whisper (detectFileType (b.audioUrl.getD "")).1
          (detectFileType (b.audioUrl.getD "")).2,
        .chat summarySystemMessage 500])
    ∧ handlerV0 req env =
      ({ status := 200, body := .ok (assembleResult b t t.text [] c) },
       [.download (b.audioUrl.getD ""), .whisper "audio/mpeg" "audio.mp3",
        .chat summarySystemMessage 500])
    ∧ (assembleResult b t t.text [] c).speakers = []
    ∧ (assembleResult b t t.text [] c).transcript
        = (assembleResult b t t.text [] c).rawTranscript
    ∧ (assembleResult b t t.text [] c).meetingSummary = c := by
  have hpp : jsNonEmpty b.participants = false := by
    rcases hp with h | h <;> simp [jsNonEmpty, h]
  refine ⟨?_, ?_, rfl, rfl, rfl⟩
  · simp [handler, hm, hb, destructure, hu, hk, hf, ht, hpp, hc]
  · simp [handlerV0, hm, hb, destructure, hu, hk, hf, ht, hpp, hc]

/-- Witness for C5: a concrete run without participants, showing the
summarization call trace and result fields. -/
theorem no_participants_summary_mode_witness :
    handler reqPlain envAllOk =
      ({ status := 200, body := .ok resPlain },
       [.download "https://example.com/a.mp3",
        .whisper "audio/mpeg" "audio.mp3",
        .chat summarySystemMessage 500])
    ∧ resPlain.speakers = []
    ∧ resPlain.transcript = resPlain.rawTranscript
    ∧ resPlain.meetingSummary = "a short summary" := by
  have h := no_participants_summary_mode reqPlain envAllOk bodyPlain trHello
    "a short summary" rfl rfl rfl rfl (Or.inl rfl) (fun _ => rfl) rfl rfl
  exact ⟨h.1.trans (by decide), rfl, rfl, rfl⟩

/-- C8 (amended): on a successfully parsed attribution response, the result
uses analysis.transcript when it is present and non-empty, falling back to
the raw transcript when the key is absent or holds the empty string; it uses
analysis.speakers when present, else the empty sequence; and it uses
analysis.meetingSummary when present, else the empty string. -/
theorem attribution_parse_success_fields (req : Request) (env : Env)
    (b : RequestBody) (ps : List ParticipantHint) (t : TranscriptionOutput)
    (c : String) (a : Analysis)
    (hm : req.method = "POST") (hb : req.body = .obj b)
    (hu : jsFalsy b.audioUrl = false) (hk : jsFalsy b.openaiApiKey = false)
    (hp : b.participants = some ps) (hne : ps ≠ [])
    (hf : ∀ u, (env.fetch u).ok = true)
    (ht : env.transcribe = Except.ok t) (hc : env.chat = Except.ok c)
    (hj : env.jsonParse c = some a) :
    (handler req env).1 =
      { status := 200,
        body := .ok (assembleResult b t (jsOrStr a.transcript t.text)
          (a.speakers.getD []) (jsOrStr a.meetingSummary "")) }
    ∧ (handlerV0 req env).1 =
      { status := 200,
        body := .ok (assembleResult b t (jsOrStr a.transcript t.text)
          (a.speakers.getD []) (jsOrStr a.meetingSummary "")) }
    ∧ (a.transcript = none → jsOrStr a.transcript t.text = t.text)
    ∧ (a.transcript = some "" → jsOrStr a.transcript t.text = t.text)
    ∧ (∀ s, a.transcript = some s → s ≠ "" → jsOrStr a.transcript t.text = s)
    ∧ (assembleResult b t (jsOrStr a.transcript t.text)
         (a.speakers.getD []) (jsOrStr a.meetingSummary "")).speakers
        = a.speakers.getD []
    ∧ (assembleResult b t (jsOrStr a.transcript t.text)
         (a.speakers.getD []) (jsOrStr a.meetingSummary "")).meetingSummary
        = a.meetingSummary.getD "" := by
  have hpp : jsNonEmpty b.participants = true := by
    rw [hp]; simp [jsNonEmpty, List.length_pos, hne]
  refine ⟨?_, ?_, ?_, ?_, ?_, rfl, jsOrStr_empty _⟩
  · simp [handler, hm, hb, destructure, hu, hk, hf, ht, hpp, hc, hj]
  · simp [handlerV0, hm, hb, destructure, hu, hk, hf, ht, hpp, hc, hj]
  · intro h; simp [jsOrStr, h]
  · intro h; simp [jsOrStr, h]
  · intro s h hs; simp [jsOrStr, h, hs]

/-- Witness for C8: a concrete parsed analysis with a non-empty transcript,
present speakers and present meetingSummary. -/
theorem attribution_parse_success_fields_witness :
    (handler reqParts envParsedGood).1 =
      { status := 200, body := .ok resParsedGood }
    ∧ resParsedGood.transcript = "Alice: hello world"
    ∧ resParsedGood.speakers
        = [{ name := "Alice", wordCount := 2, summary := "spoke" }]
    ∧ resParsedGood.meetingSummary = "short meeting" := by
  have h := attribution_parse_success_fields reqParts envParsedGood bodyParts
    [{ speaker := "Alice", sampleQuote := none }] trHello "json payload"
    analysisGood rfl rfl rfl rfl rfl (by decide) (fun _ => rfl) rfl rfl rfl
  exact ⟨h.1.trans (by decide), rfl, rfl, rfl⟩

/-- Counterexample for C8 as stated: an analysis whose transcript key is
present but holds the empty string is not used; the code falls back to the
raw transcript because the empty string is falsy in JavaScript. -/
theorem attribution_empty_transcript_not_used :
    envParsedEmpty.jsonParse "json payload" = some analysisEmptyTranscript
    ∧ analysisEmptyTranscript.transcript = some ""
    ∧ resultOf (handler reqParts envParsedEmpty).1 = some resParsedEmpty
    ∧ resParsedEmpty.transcript = "hello world"
    ∧ resParsedEmpty.transcript ≠ "" :=
  ⟨rfl, rfl, by decide, rfl, by decide⟩

/-- C9 (amended): with a successful transcription, every success result of
either handler version defaults a missing segments field to the empty
sequence, a missing duration to 0 and a missing language to en; present
segments and durations pass through unchanged (a present duration 0
coincides with the default), and a present language passes through exactly
when it is non-empty, a present empty language string being defaulted to en
as well. -/
theorem optional_fields_defaults (req : Request) (env : Env)
    (b : RequestBody) (t : TranscriptionOutput)
    (hm : req.method = "POST") (hb : req.body = .obj b)
    (hu : jsFalsy b.audioUrl = false) (hk : jsFalsy b.openaiApiKey = false)
    (hf : ∀ u, (env.fetch u).ok = true)
    (ht : env.transcribe = Except.ok t) :
    (∀ r, resultOf (handler req env).1 = some r →
      r.segments = t.segments.getD []
      ∧ r.duration = t.duration.getD 0
      ∧ r.language = jsOrStr t.language "en")
    ∧ (∀ r, resultOf (handlerV0 req env).1 = some r →
      r.segments = t.segments.getD []
      ∧ r.duration = t.duration.getD 0
      ∧ r.language = jsOrStr t.language "en")
    ∧ (t.language = none → jsOrStr t.language "en" = "en")
    ∧ (t.language = some "" → jsOrStr t.language "en" = "en")
    ∧ (∀ s, t.language = some s → s ≠ "" → jsOrStr t.language "en" = s) := by
  refine ⟨?_, ?_, ?_, ?_, ?_⟩
  · intro r hr
    simp [handler, hm, hb, destructure, hu, hk, hf, ht] at hr
    repeat' split at hr
    all_goals try simp_all [resultOf, assembleResult, jsOrInt_zero]
    all_goals (subst hr; simp [jsOrInt_zero])
  · intro r hr
    simp [handlerV0, hm, hb, destructure, hu, hk, hf, ht] at hr
    repeat' split at hr
    all_goals try simp_all [resultOf, assembleResult, jsOrInt_zero]
    all_goals (subst hr; simp [jsOrInt_zero])
  · intro h; simp [jsOrStr, h]
  · intro h; simp [jsOrStr, h]
  · intro s h hs; simp [jsOrStr, h, hs]

/-- Witness for C9: a concrete run whose transcription has all optional
fields present. -/
theorem optional_fields_defaults_witness :
    resultOf (handler reqPlain envLangEmpty).1 = some resLangEmpty
    ∧ resLangEmpty.segments = [{ start := 0, stop := 2, text := "hi" }]
    ∧ resLangEmpty.duration = 5
    ∧ resLangEmpty.language = "en" := by
  have h := (optional_fields_defaults reqPlain envLangEmpty bodyPlain
    trLangEmpty rfl rfl rfl rfl (fun _ => rfl) rfl).1 resLangEmpty (by decide)
  exact ⟨by decide, h.1.trans (by decide), h.2.1.trans (by decide),
    h.2.2.trans (by decide)⟩

/-- Counterexample for C9 as stated: a transcription whose language field is
present but empty is not passed through unmodified; the result holds en. -/
theorem language_empty_not_preserved :
    envLangEmpty.transcribe = Except.ok trLangEmpty
    ∧ trLangEmpty.language = some ""
    ∧ resultOf (handler reqPlain envLangEmpty).1 = some resLangEmpty
    ∧ resLangEmpty.language = "en"
    ∧ resLangEmpty.language ≠ "" :=
  ⟨rfl, rfl, by decide, rfl, by decide⟩

end MeetingTranscription
